import Mathlib

/-!
Shallow embedding of Spyder's theme resolution and synchronization engine
(`spyder/utils/theme_manager.py` and `spyder/utils/palette.py`), together
with proofs about the embedded operations.

Python conventions used by the embedding:
* a palette class is modelled as the finite map from attribute name to color
  string; attribute access on a missing name is an `AttributeError`;
* the persisted config store (an external collaborator, exposed in the source
  through `CONF.get`/`CONF.set`) is modelled as an association list keyed by
  `(section, option)`;
* fallible operations return `Except PyErr`; a Python `try/except` block is a
  `match` on that result.
-/

namespace Spyder

/-- The Python exception kinds raised by the embedded code paths. -/
inductive PyErr where
  | importError (name : String)
  | valueError (msg : String)
  | attributeError (name : String)
  deriving Repr, DecidableEq

/-- A theme palette class: a finite map from attribute name (such as
`EDITOR_BACKGROUND`) to its color string. -/
abbrev Palette := List (String × String)

/-- Python attribute lookup on a palette class. -/
def attrLookup : Palette → String → Option String
  | [], _ => none
  | (a, v) :: rest, name => if a = name then some v else attrLookup rest name

/-- The persisted configuration store: `(section, option)` keys mapped to
string values.  `CONF.set` prepends, `CONF.get` finds the newest binding. -/
abbrev Config := List ((String × String) × String)

/-- Embeds `CONF.get(section, option)`: the most recently written value, if any. -/
def confGet : Config → String → String → Option String
  | [], _, _ => none
  | ((s, o), v) :: rest, sec, opt =>
    if s = sec ∧ o = opt then some v else confGet rest sec opt

/-- Embeds `CONF.get(section, option, default)`. -/
def confGetD (c : Config) (sec opt dflt : String) : String :=
  (confGet c sec opt).getD dflt

/-- Embeds `CONF.set(section, option, value)`. -/
def confSet (c : Config) (sec opt v : String) : Config :=
  ((sec, opt), v) :: c

/-- An importable theme module, as the loader sees it: optional module
docstring, the two optional palette classes, and the optional stylesheet file
contents per mode (`dark/darkstyle.qss`, `light/lightstyle.qss`). -/
structure ThemeModule where
  doc : Option String
  darkPalette : Option Palette
  lightPalette : Option Palette
  darkQss : Option String
  lightQss : Option String
  deriving Repr, DecidableEq

/-- The interpreter-level environment the engine runs in: which module paths
are importable (`importlib.import_module`), the value of
`is_dark_interface()`, and the value of `_is_conf_ready()`. -/
structure World where
  modules : List (String × ThemeModule)
  darkInterface : Bool
  confReady : Bool

/-- Module lookup by full module path. -/
def findModule : List (String × ThemeModule) → String → Option ThemeModule
  | [], _ => none
  | (n, m) :: rest, name => if n = name then some m else findModule rest name

/-- Embeds `importlib.import_module(name)` against the world's installed modules. -/
def World.importModule (w : World) (name : String) : Option ThemeModule :=
  findModule w.modules name

/-- Python `c in s` for a single character. -/
def pyContainsChar (s : String) (c : Char) : Bool :=
  s.data.contains c

/-- Split a character list on a non-empty separator, leftmost first,
non-overlapping (the `fuel` argument, called with the list length, makes the
recursion structural; each step consumes at least one character). -/
def subSplit (sep : List Char) : Nat → List Char → List (List Char)
  | _, [] => [[]]
  | 0, cs => [cs]
  | fuel + 1, c :: cs =>
    if sep.isPrefixOf (c :: cs) then
      [] :: subSplit sep fuel (List.drop (sep.length - 1) cs)
    else
      match subSplit sep fuel cs with
      | [] => [[c]]
      | g :: gs => (c :: g) :: gs

/-- Python `s.split(sep)` for a non-empty separator. -/
def pySplitOn (s sep : String) : List String :=
  (subSplit sep.data s.data.length s.data).map (fun l => String.mk l)

/-- Join character lists with a separator. -/
def joinWith (sep : List Char) : List (List Char) → List Char
  | [] => []
  | [g] => g
  | g :: gs => g ++ sep ++ joinWith sep gs

/-- Python `sep.join(parts)`. -/
def pyJoin (sep : String) (parts : List String) : String :=
  String.mk (joinWith sep.data (parts.map String.data))

/-- Python `s.replace(old, new)` for a non-empty `old`: every occurrence,
left to right. -/
def pyReplace (s old new : String) : String :=
  pyJoin new (pySplitOn s old)

/-- Python `s.strip()`: whitespace removed from both ends. -/
def pyStrip (s : String) : String :=
  String.mk
    (((s.data.dropWhile Char.isWhitespace).reverse.dropWhile Char.isWhitespace).reverse)

/-- Python `s.startswith(t)`. -/
def pyStartsWith (s t : String) : Bool :=
  t.data.isPrefixOf s.data

/-- Python `t in s` for a non-empty substring `t`: the split on `t` has more
than one part exactly when `t` occurs in `s`. -/
def pyContainsSub (s t : String) : Bool :=
  (pySplitOn s t).length > 1

/-- Python `s.rsplit(sep, 1)` for a string known to contain `sep`: the part
before the last separator, and the part after it. -/
def rsplit1 (s sep : String) : String × String :=
  let parts := pySplitOn s sep
  (pyJoin sep parts.dropLast, (parts.getLast?).getD "")

/-- Helper for `pyTitle`: `prevAlpha` records whether the previous character
was alphabetic. -/
def pyTitleGo : Bool → List Char → List Char
  | _, [] => []
  | prevAlpha, ch :: rest =>
    let isA := ch.isAlpha
    let out :=
      if isA && !prevAlpha then ch.toUpper
      else if isA then ch.toLower
      else ch
    out :: pyTitleGo isA rest

/-- Python `str.title()`: uppercase the first character of every alphabetic
run, lowercase the rest. -/
def pyTitle (s : String) : String := ⟨pyTitleGo false s.data⟩

/-- Python `str.capitalize()`: first character uppercased, the rest
lowercased. -/
def pyCapitalize (s : String) : String :=
  match s.data with
  | [] => ""
  | ch :: rest => ⟨ch.toUpper :: rest.map Char.toLower⟩

/-- The fallback display name used for a package-style theme path
(`theme_path.split('.')[-1].replace('-', ' ').replace('_', ' ').title()`). -/
def moduleFallbackName (themePath : String) : String :=
  pyTitle
    (pyReplace (pyReplace (((pySplitOn themePath ".").getLast?).getD "") "-" " ") "_" " ")

/-- The docstring scan of `get_theme_display_name`: when the module docstring is
truthy and contains "Theme:", the first line whose stripped form starts with
"Theme:" supplies the name; otherwise the formatted module-path fallback. -/
def docThemeName (doc : Option String) (themePath : String) : String :=
  match doc with
  | none => moduleFallbackName themePath
  | some d =>
    if d ≠ "" ∧ pyContainsSub d "Theme:" then
      match (pySplitOn (pyStrip d) "\n").find? (fun line => pyStartsWith (pyStrip line) "Theme:") with
      | some line => pyStrip ((pySplitOn line "Theme:").getD 1 "")
      | none => moduleFallbackName themePath
    else moduleFallbackName themePath

/-- The body of the `try` block of `ThemeManager.get_theme_display_name`:
split the variant into path and optional mode, derive the base name (via
module import and docstring for package paths, `capitalize` otherwise), then
append the title-cased mode when the mode string is truthy. -/
def displayNameBody (w : World) (themeVariant : String) : Except PyErr String :=
  let pm :=
    if pyContainsChar themeVariant '/' then
      let r := rsplit1 themeVariant "/"
      (r.1, some r.2)
    else (themeVariant, none)
  let themePath := pm.1
  let nameRes : Except PyErr String :=
    if pyContainsChar themePath '.' then
      match w.importModule themePath with
      | none => .error (.importError themePath)
      | some m => .ok (docThemeName m.doc themePath)
    else
      .ok (pyCapitalize themePath)
  match nameRes with
  | .error e => .error e
  | .ok themeName =>
    match pm.2 with
    | some mode =>
      if mode ≠ "" then .ok (themeName ++ " (" ++ pyTitle mode ++ ")")
      else .ok themeName
    | none => .ok themeName

/-- Embeds `ThemeManager.get_theme_display_name(theme_variant)`: the `try` body with
the catch-all fallback
`theme_variant.replace('_', ' ').replace('.', ' ').title()`. -/
def getThemeDisplayName (w : World) (themeVariant : String) : String :=
  match displayNameBody w themeVariant with
  | .ok s => s
  | .error _ => pyTitle (pyReplace (pyReplace themeVariant "_" " ") "." " ")

/-- The color-scheme key / palette-attribute pairs of the dict literal in
`ThemeManager.get_syntax_color_scheme` (and, textually identical, the
`palette_attrs` dict literal in `ThemeManager.load_theme`), in source order.
Note this dict has seventeen entries. -/
def schemeAttrPairs : List (String × String) :=
  [("background", "EDITOR_BACKGROUND"),
   ("currentline", "EDITOR_CURRENTLINE"),
   ("currentcell", "EDITOR_CURRENTCELL"),
   ("occurrence", "EDITOR_OCCURRENCE"),
   ("ctrlclick", "EDITOR_CTRLCLICK"),
   ("sideareas", "EDITOR_SIDEAREAS"),
   ("matched_p", "EDITOR_MATCHED_P"),
   ("unmatched_p", "EDITOR_UNMATCHED_P"),
   ("normal", "EDITOR_NORMAL"),
   ("keyword", "EDITOR_KEYWORD"),
   ("builtin", "EDITOR_BUILTIN"),
   ("definition", "EDITOR_DEFINITION"),
   ("comment", "EDITOR_COMMENT"),
   ("string", "EDITOR_STRING"),
   ("number", "EDITOR_NUMBER"),
   ("instance", "EDITOR_INSTANCE"),
   ("magic", "EDITOR_MAGIC")]

/-- Evaluate a color-scheme dict literal over a palette, in entry order: the
first missing palette attribute raises `AttributeError`. -/
def extractScheme (p : Palette) : List (String × String) → Except PyErr (List (String × String))
  | [] => .ok []
  | (key, attrName) :: rest =>
    match attrLookup p attrName with
    | none => .error (.attributeError attrName)
    | some v =>
      match extractScheme p rest with
      | .ok cs => .ok ((key, v) :: cs)
      | .error e => .error e

/-- Embeds `ThemeManager.get_syntax_color_scheme(palette)`: builds the seventeen-entry
color-scheme dict by reading the EDITOR_* attributes of the palette. -/
def getSyntaxColorScheme (p : Palette) : Except PyErr (List (String × String)) :=
  extractScheme p schemeAttrPairs

/-- Embeds `ThemeManager._load_stylesheet(theme_name, ui_mode)`: import the theme
module, pick `dark/darkstyle.qss` when `ui_mode == "dark"` and
`light/lightstyle.qss` otherwise, and raise `ValueError` when the file does
not exist.  (Loading the optional Qt resource module only mutates a private
dict of module references and swallows every failure, so it is not
modelled.) -/
def loadStylesheet (w : World) (themeName uiMode : String) : Except PyErr String :=
  match w.importModule themeName with
  | none => .error (.importError themeName)
  | some m =>
    match (if uiMode = "dark" then m.darkQss else m.lightQss) with
    | none =>
      .error (.valueError ("Stylesheet not found for theme " ++ themeName ++ " in " ++ uiMode ++ " mode"))
    | some qss => .ok qss

/-- Embeds `ThemeManager._load_theme_internal(theme_name, ui_mode=None)`: default the
mode from `is_dark_interface()`, import the theme module (`ImportError` when
not installed), pick `SpyderPaletteDark` for mode "dark" and
`SpyderPaletteLight` otherwise (`ValueError` when the class is absent), and
load the stylesheet.  No completeness check is performed on the palette. -/
def loadThemeInternal (w : World) (themeName : String) (uiMode : Option String) :
    Except PyErr (Palette × String) :=
  let mode :=
    match uiMode with
    | some m => m
    | none => if w.darkInterface then "dark" else "light"
  match w.importModule themeName with
  | none => .error (.importError themeName)
  | some tm =>
    let pal : Except PyErr Palette :=
      if mode = "dark" then
        match tm.darkPalette with
        | none => .error (.valueError ("Theme " ++ themeName ++ " has no SpyderPaletteDark class"))
        | some p => .ok p
      else
        match tm.lightPalette with
        | none => .error (.valueError ("Theme " ++ themeName ++ " has no SpyderPaletteLight class"))
        | some p => .ok p
    match pal with
    | .error e => .error e
    | .ok p =>
      match loadStylesheet w themeName mode with
      | .error e => .error e
      | .ok ss => .ok (p, ss)

/-- The mutable fields of the `ThemeManager` instance that the claims touch
(`_loaded_resource_modules` is omitted: it only holds module references). -/
structure TMState where
  currentTheme : Option String
  currentPalette : Option Palette
  currentStylesheet : Option String
  deriving Repr, DecidableEq

/-- The engine's mutable world: the theme-manager singleton state and the
persisted config store. -/
structure Engine where
  tm : TMState
  conf : Config
  deriving Repr, DecidableEq

/-- The `CONF.set` loop of the `replace=True` branch of
`export_theme_to_config` (and of `load_theme`): write every scheme entry
under the variant's key. -/
def writeScheme (c : Config) (variantName : String) (cs : List (String × String)) : Config :=
  cs.foldl (fun c kv => confSet c "appearance" (variantName ++ "/" ++ kv.1) kv.2) c

/-- Modelled from the spec: `set_color_scheme` (from `spyder.config.gui`,
which is not under src/) is the fill-if-missing write path — per §4.4, under
fill-if-missing it skips writing keys that already exist with a value, and
under replace it always overwrites. -/
def setColorScheme (variantName : String) (cs : List (String × String)) (replace : Bool)
    (c : Config) : Config :=
  cs.foldl
    (fun c kv =>
      let opt := variantName ++ "/" ++ kv.1
      if replace then confSet c "appearance" opt kv.2
      else
        match confGet c "appearance" opt with
        | some _ => c
        | none => confSet c "appearance" opt kv.2)
    c

/-- Outcome of `export_theme_to_config`: the raised-or-returned result, the
engine state after the call, and whether the body of the restore block (the
reload of the previously current theme) was entered. -/
structure ExportResult where
  result : Except PyErr Unit
  engine : Engine
  restoreAttempted : Bool
  deriving Repr

/-- Embeds `ThemeManager.export_theme_to_config(theme_name, ui_mode, replace)`:
remember `self._current_theme`; load the target via `_load_theme_internal`
(which mutates no engine state); extract its color scheme; with
`replace=True` write every color directly with `CONF.set`, otherwise go
through `set_color_scheme(..., replace=False)`; write the display name; then,
only when a current theme exists and differs from the exported theme, reload
it with the mode taken from `is_dark_interface()`, swallowing any failure.
Exceptions from the load or the extraction propagate before any config
write and before the restore block. -/
def exportThemeToConfig (w : World) (e : Engine) (themeName uiMode : String)
    (replace : Bool) : ExportResult :=
  let currentTheme := e.tm.currentTheme
  match loadThemeInternal w themeName (some uiMode) with
  | .error err => ⟨.error err, e, false⟩
  | .ok (palette, _stylesheet) =>
    match getSyntaxColorScheme palette with
    | .error err => ⟨.error err, e, false⟩
    | .ok colorScheme =>
      let variantName := themeName ++ "/" ++ uiMode
      let conf1 :=
        if replace then writeScheme e.conf variantName colorScheme
        else setColorScheme variantName colorScheme false e.conf
      let displayName := getThemeDisplayName w variantName
      let conf2 := confSet conf1 "appearance" (variantName ++ "/name") displayName
      let e2 : Engine := { e with conf := conf2 }
      match currentTheme with
      | some ct =>
        if ct ≠ themeName then
          -- restore block: `_load_theme_internal(current_theme, restore_ui_mode)`
          -- has no engine side effects and its failure is swallowed, so the
          -- result below does not depend on its outcome
          let restoreMode := if w.darkInterface then "dark" else "light"
          let _ := loadThemeInternal w ct (some restoreMode)
          ⟨.ok (), e2, true⟩
        else ⟨.ok (), e2, false⟩
      | none => ⟨.ok (), e2, false⟩

/-- Python str() of the optional `ui_mode` argument as it appears inside the
f-string building `variant_name` in `load_theme`: `None` renders as the
string "None". -/
def pyOptStr : Option String → String
  | some m => m
  | none => "None"

/-- Outcome of `load_theme`: the raised-or-returned result and the engine
state after the call. -/
structure LoadResult where
  result : Except PyErr (Palette × String)
  engine : Engine
  deriving Repr

/-- Embeds `ThemeManager.load_theme(theme_name, ui_mode=None)`: load via
`_load_theme_internal`, store the current theme/palette/stylesheet, evaluate
the `palette_attrs` dict (identical to `get_syntax_color_scheme`; an
incomplete palette raises `AttributeError` here, after the current-theme
fields were already updated), then write every color and the display name to
config under `variant_name = f"{theme_name}/{ui_mode}"` — computed from the
original `ui_mode` argument, which is still `None` when the caller did not
supply a mode. -/
def loadTheme (w : World) (e : Engine) (themeName : String) (uiMode : Option String) :
    LoadResult :=
  match loadThemeInternal w themeName uiMode with
  | .error err => ⟨.error err, e⟩
  | .ok (palette, stylesheet) =>
    let tm1 : TMState :=
      { currentTheme := some themeName
        currentPalette := some palette
        currentStylesheet := some stylesheet }
    match getSyntaxColorScheme palette with
    | .error err => ⟨.error err, { tm := tm1, conf := e.conf }⟩
    | .ok paletteAttrs =>
      let variantName := themeName ++ "/" ++ pyOptStr uiMode
      let conf1 := writeScheme e.conf variantName paletteAttrs
      let displayName := getThemeDisplayName w variantName
      let conf2 := confSet conf1 "appearance" (variantName ++ "/name") displayName
      ⟨.ok (palette, stylesheet), { tm := tm1, conf := conf2 }⟩

/-- Embeds `ThemeManager.get_theme_modes(theme_name)`: on `ImportError` return both
modes; otherwise collect "dark"/"light" from the palette classes present, and
if neither is present return both modes. -/
def getThemeModes (w : World) (themeName : String) : List String :=
  match w.importModule themeName with
  | none => ["dark", "light"]
  | some m =>
    let modes :=
      (if m.darkPalette.isSome then ["dark"] else []) ++
      (if m.lightPalette.isSome then ["light"] else [])
    if modes.isEmpty then ["dark", "light"] else modes

/-- Embeds `theme_manager.normalize_theme_name(theme_name)` as called from
`spyder/utils/palette.py`: `ThemeManager` defines no method or attribute named
`normalize_theme_name` (and nothing anywhere in the codebase defines or
injects one on the class or the `theme_manager` singleton), so this attribute
access raises `AttributeError` in Python before any call happens. -/
def normalizeThemeName (_themeName : String) : Except PyErr String :=
  .error (.attributeError "normalize_theme_name")

/-- The hardcoded default variant string used throughout
`_get_theme_palette`. -/
def defaultSelected : String := "spyder_themes.spyder/dark"

/-- Outcome of `_get_theme_palette`: the returned palette class (the function
catches every exception and returns `None` on total failure, so it never
raises), the engine state after the call, and the list of
`export_theme_to_config` calls performed, as `(theme, mode, replace)`
triples. -/
structure ResolveResult where
  palette : Option Palette
  engine : Engine
  exports : List (String × String × Bool)
  deriving Repr

/-- The `except` block of `_get_theme_palette`: fall back to
`load_theme("spyder_themes.spyder", "dark")` and return `None` when that also
fails. -/
def resolveFallback (w : World) (e : Engine) (exports : List (String × String × Bool)) :
    ResolveResult :=
  let r := loadTheme w e "spyder_themes.spyder" (some "dark")
  match r.result with
  | .ok (p, _) => ⟨some p, r.engine, exports⟩
  | .error _ => ⟨none, r.engine, exports⟩

/-- Embeds `_get_theme_palette()` from `spyder/utils/palette.py`.

When `_is_conf_ready()`, the inner `try` reads the selection and — when it
has the "<theme>/<mode>" form — calls `theme_manager.normalize_theme_name`,
which raises `AttributeError`, so the `export_theme_to_config(theme_name,
ui_mode, replace=True)` call on the next line is never reached; the inner
`except` swallows the exception (it only logs), leaving all state unchanged.
The selection is then re-read (`CONF.get` with a default never raises in the
store model, so its own `except` arm is dead) or, when the config store is
not ready, set to the hardcoded default.

The selection is parsed ("<theme>/<mode>", or the legacy form without a
slash defaulting to "dark"), and `normalize_theme_name` is called again —
outside any inner handler — so the `AttributeError` reaches the outer
`except` before `load_theme` can run, and control always continues at the
fallback.  The branch for a succeeding normalization is kept for fidelity to
the source text but is unreachable. -/
def getThemePalette (w : World) (e : Engine) : ResolveResult :=
  let inner : Engine × List (String × String × Bool) :=
    if w.confReady then
      let sel0 := confGetD e.conf "appearance" "selected" defaultSelected
      if pyContainsChar sel0 '/' then
        let tm0 := rsplit1 sel0 "/"
        match normalizeThemeName tm0.1 with
        | .ok tn =>
          let ex := exportThemeToConfig w e tn tm0.2 true
          (ex.engine, [(tn, tm0.2, true)])
        | .error _ => (e, [])
      else (e, [])
    else (e, [])
  let e1 := inner.1
  let selected :=
    if w.confReady then confGetD e1.conf "appearance" "selected" defaultSelected
    else defaultSelected
  let parsed :=
    if pyContainsChar selected '/' then rsplit1 selected "/"
    else (selected, "dark")
  match normalizeThemeName parsed.1 with
  | .ok tn =>
    let r := loadTheme w e1 tn (some parsed.2)
    match r.result with
    | .ok (p, _) => ⟨some p, r.engine, inner.2⟩
    | .error _ => resolveFallback w r.engine inner.2
  | .error _ => resolveFallback w e1 inner.2

/-- The first access to `palette.SpyderPalette` through the module
`__getattr__`: run `_get_theme_palette` and raise `ImportError` when it
returned `None`. -/
def spyderPaletteFirstAccess (w : World) (e : Engine) : Except PyErr Palette × Engine :=
  let r := getThemePalette w e
  match r.palette with
  | some p => (.ok p, r.engine)
  | none => (.error (.importError "SpyderPalette"), r.engine)

/-- Modelled from the spec: the theme packages themselves
(`spyder_themes`/`spyder/utils/themes` sources) are not under src/.  The spec
fixes the concrete scenario "theme solarized, mode dark, has
EDITOR_BACKGROUND = #002B36"; the remaining sixteen attributes carry concrete
placeholder colors, which no claim constrains. -/
def solarizedDarkPalette : Palette :=
  [("EDITOR_BACKGROUND", "#002B36"),
   ("EDITOR_CURRENTLINE", "#073642"),
   ("EDITOR_CURRENTCELL", "#083C4A"),
   ("EDITOR_OCCURRENCE", "#586E75"),
   ("EDITOR_CTRLCLICK", "#268BD2"),
   ("EDITOR_SIDEAREAS", "#073642"),
   ("EDITOR_MATCHED_P", "#859900"),
   ("EDITOR_UNMATCHED_P", "#DC322F"),
   ("EDITOR_NORMAL", "#839496"),
   ("EDITOR_KEYWORD", "#859900"),
   ("EDITOR_BUILTIN", "#B58900"),
   ("EDITOR_DEFINITION", "#268BD2"),
   ("EDITOR_COMMENT", "#586E75"),
   ("EDITOR_STRING", "#2AA198"),
   ("EDITOR_MAGIC", "#CB4B16"),
   ("EDITOR_NUMBER", "#D33682"),
   ("EDITOR_INSTANCE", "#6C71C4")]

/-- A concrete complete palette for the default theme
(`spyder_themes.spyder`, dark); the values are placeholders distinct from the
other fixture palettes. -/
def spyderDarkPalette : Palette :=
  [("EDITOR_BACKGROUND", "#19232D"),
   ("EDITOR_CURRENTLINE", "#263238"),
   ("EDITOR_CURRENTCELL", "#37474F"),
   ("EDITOR_OCCURRENCE", "#455A64"),
   ("EDITOR_CTRLCLICK", "#179AE0"),
   ("EDITOR_SIDEAREAS", "#222B35"),
   ("EDITOR_MATCHED_P", "#0BBE0B"),
   ("EDITOR_UNMATCHED_P", "#FF0000"),
   ("EDITOR_NORMAL", "#FFFFFF"),
   ("EDITOR_KEYWORD", "#C670E0"),
   ("EDITOR_BUILTIN", "#FAB16C"),
   ("EDITOR_DEFINITION", "#57D6E4"),
   ("EDITOR_COMMENT", "#999999"),
   ("EDITOR_STRING", "#B0E686"),
   ("EDITOR_MAGIC", "#C670E0"),
   ("EDITOR_NUMBER", "#FAED5C"),
   ("EDITOR_INSTANCE", "#EE99EE")]

/-- A concrete complete palette for `spyder_themes.dracula`, dark; distinct
from the default palette. -/
def draculaDarkPalette : Palette :=
  [("EDITOR_BACKGROUND", "#282A36"),
   ("EDITOR_CURRENTLINE", "#44475A"),
   ("EDITOR_CURRENTCELL", "#3B3D4D"),
   ("EDITOR_OCCURRENCE", "#6272A4"),
   ("EDITOR_CTRLCLICK", "#8BE9FD"),
   ("EDITOR_SIDEAREAS", "#21222C"),
   ("EDITOR_MATCHED_P", "#50FA7B"),
   ("EDITOR_UNMATCHED_P", "#FF5555"),
   ("EDITOR_NORMAL", "#F8F8F2"),
   ("EDITOR_KEYWORD", "#FF79C6"),
   ("EDITOR_BUILTIN", "#8BE9FD"),
   ("EDITOR_DEFINITION", "#50FA7B"),
   ("EDITOR_COMMENT", "#6272A4"),
   ("EDITOR_STRING", "#F1FA8C"),
   ("EDITOR_MAGIC", "#FF79C6"),
   ("EDITOR_NUMBER", "#BD93F9"),
   ("EDITOR_INSTANCE", "#BD93F9")]

/-- A palette that is missing one required attribute (`EDITOR_MAGIC`): used
to check what the loader does with an incomplete palette. -/
def incompletePalette : Palette :=
  [("EDITOR_BACKGROUND", "#000000"),
   ("EDITOR_CURRENTLINE", "#111111"),
   ("EDITOR_CURRENTCELL", "#222222"),
   ("EDITOR_OCCURRENCE", "#333333"),
   ("EDITOR_CTRLCLICK", "#444444"),
   ("EDITOR_SIDEAREAS", "#555555"),
   ("EDITOR_MATCHED_P", "#666666"),
   ("EDITOR_UNMATCHED_P", "#777777"),
   ("EDITOR_NORMAL", "#888888"),
   ("EDITOR_KEYWORD", "#999999"),
   ("EDITOR_BUILTIN", "#AAAAAA"),
   ("EDITOR_DEFINITION", "#BBBBBB"),
   ("EDITOR_COMMENT", "#CCCCCC"),
   ("EDITOR_STRING", "#DDDDDD"),
   ("EDITOR_NUMBER", "#EEEEEE"),
   ("EDITOR_INSTANCE", "#ABCDEF")]

/-- The `solarized` theme module of the repository's debug scripts: dark-mode
palette and stylesheet only. -/
def solarizedModule : ThemeModule :=
  { doc := none
    darkPalette := some solarizedDarkPalette
    lightPalette := none
    darkQss := some "solarized-dark-stylesheet"
    lightQss := none }

/-- The default theme module `spyder_themes.spyder`. -/
def spyderThemeModule : ThemeModule :=
  { doc := some "Theme: Spyder"
    darkPalette := some spyderDarkPalette
    lightPalette := none
    darkQss := some "spyder-dark-stylesheet"
    lightQss := none }

/-- The installed theme module `spyder_themes.dracula`. -/
def draculaModule : ThemeModule :=
  { doc := some "Theme: Dracula"
    darkPalette := some draculaDarkPalette
    lightPalette := none
    darkQss := some "dracula-dark-stylesheet"
    lightQss := none }

/-- A theme module whose dark palette is incomplete (no `EDITOR_MAGIC`). -/
def brokenThemeModule : ThemeModule :=
  { doc := none
    darkPalette := some incompletePalette
    lightPalette := none
    darkQss := some "broken-dark-stylesheet"
    lightQss := none }

/-- A theme module that imports fine but defines neither palette class. -/
def noPaletteModule : ThemeModule :=
  { doc := none
    darkPalette := none
    lightPalette := none
    darkQss := none
    lightQss := none }

/-- The installed-module table shared by the concrete worlds. -/
def testModules : List (String × ThemeModule) :=
  [("solarized", solarizedModule),
   ("spyder_themes.spyder", spyderThemeModule),
   ("spyder_themes.dracula", draculaModule),
   ("broken_theme", brokenThemeModule),
   ("no_palette_theme", noPaletteModule)]

/-- Concrete world with the config store ready and a dark interface. -/
def readyWorld : World :=
  { modules := testModules, darkInterface := true, confReady := true }

/-- The same installed state with the config store not yet ready. -/
def notReadyWorld : World :=
  { modules := testModules, darkInterface := true, confReady := false }

/-- A fresh engine: no current theme, empty config store. -/
def emptyEngine : Engine :=
  { tm := { currentTheme := none, currentPalette := none, currentStylesheet := none }
    conf := [] }

/-- An engine whose config store selects the installed, loadable
`spyder_themes.dracula/dark` variant. -/
def draculaSelectedEngine : Engine :=
  { tm := { currentTheme := none, currentPalette := none, currentStylesheet := none }
    conf := [(("appearance", "selected"), "spyder_themes.dracula/dark")] }

/-- An engine whose config store pre-sets the solarized dark background color
key to a custom user value. -/
def customEngine : Engine :=
  { tm := { currentTheme := none, currentPalette := none, currentStylesheet := none }
    conf := [(("appearance", "solarized/dark/background"), "#123456")] }

theorem confGet_confSet_self (c : Config) (s o v : String) :
    confGet (confSet c s o v) s o = some v := by
  simp [confGet, confSet]

theorem confGet_confSet_ne (c : Config) (s o v sec opt : String) (h : opt ≠ o) :
    confGet (confSet c s o v) sec opt = confGet c sec opt := by
  simp [confGet, confSet]
  intro _ h2
  exact absurd h2.symm h

theorem str_append_left_cancel {p s t : String} (h : p ++ s = p ++ t) : s = t := by
  have hd : (p ++ s).data = (p ++ t).data := congrArg String.data h
  rw [String.data_append, String.data_append] at hd
  exact String.ext (List.append_cancel_left hd)

theorem optKey_inj {vn k k' : String} (h : vn ++ "/" ++ k = vn ++ "/" ++ k') : k = k' :=
  str_append_left_cancel (p := vn ++ "/") h

theorem nameKey_eq (vn : String) : vn ++ "/name" = vn ++ "/" ++ "name" := by
  rw [String.append_assoc]
  rfl

theorem nameKey_ne {vn k : String} (hk : k ≠ "name") : vn ++ "/" ++ k ≠ vn ++ "/name" := by
  intro h
  rw [nameKey_eq] at h
  exact hk (optKey_inj h)

theorem confGet_writeScheme_notMem (c : Config) (vn : String) (cs : List (String × String))
    (k : String) (hk : k ∉ cs.map Prod.fst) (sec : String) :
    confGet (writeScheme c vn cs) sec (vn ++ "/" ++ k) = confGet c sec (vn ++ "/" ++ k) := by
  induction cs generalizing c with
  | nil => rfl
  | cons kv rest ih =>
    simp only [List.map_cons, List.mem_cons, not_or] at hk
    show confGet (writeScheme (confSet c "appearance" (vn ++ "/" ++ kv.1) kv.2) vn rest)
        sec (vn ++ "/" ++ k) = _
    rw [ih _ hk.2]
    exact confGet_confSet_ne _ _ _ _ _ _ (fun h => hk.1 (optKey_inj h))

theorem confGet_writeScheme_mem (vn k v : String) :
    ∀ (cs : List (String × String)), (cs.map Prod.fst).Nodup → (k, v) ∈ cs →
    ∀ (c : Config), confGet (writeScheme c vn cs) "appearance" (vn ++ "/" ++ k) = some v := by
  intro cs
  induction cs with
  | nil =>
    intro _ hmem _
    cases hmem
  | cons kv rest ih =>
    intro hnd hmem c
    simp only [List.map_cons, List.nodup_cons] at hnd
    rcases List.mem_cons.mp hmem with heq | htail
    · subst heq
      show confGet (writeScheme (confSet c "appearance" (vn ++ "/" ++ k) v) vn rest)
          "appearance" (vn ++ "/" ++ k) = _
      rw [confGet_writeScheme_notMem _ _ _ _ hnd.1]
      exact confGet_confSet_self _ _ _ _
    · exact ih hnd.2 htail _

theorem confGet_setColorScheme_preserved (vn : String) (cs : List (String × String))
    (c : Config) (opt custom : String)
    (hpre : confGet c "appearance" opt = some custom) :
    confGet (setColorScheme vn cs false c) "appearance" opt = some custom := by
  induction cs generalizing c with
  | nil => exact hpre
  | cons kv rest ih =>
    show confGet
        (setColorScheme vn rest false
          (match confGet c "appearance" (vn ++ "/" ++ kv.1) with
           | some _ => c
           | none => confSet c "appearance" (vn ++ "/" ++ kv.1) kv.2)) "appearance" opt = _
    rcases hget : confGet c "appearance" (vn ++ "/" ++ kv.1) with _ | w
    · apply ih
      rw [confGet_confSet_ne]
      · exact hpre
      · intro h
        rw [h, hget] at hpre
        cases hpre
    · exact ih _ hpre

theorem extractScheme_keys (p : Palette) (pairs cs : List (String × String))
    (h : extractScheme p pairs = .ok cs) : cs.map Prod.fst = pairs.map Prod.fst := by
  induction pairs generalizing cs with
  | nil =>
    cases h
    rfl
  | cons ka rest ih =>
    unfold extractScheme at h
    rcases hl : attrLookup p ka.2 with _ | v <;> rw [hl] at h
    · cases h
    · rcases hr : extractScheme p rest with e | cs' <;> rw [hr] at h
      · cases h
      · cases h
        simp only [List.map_cons]
        rw [ih cs' hr]

theorem getSyntaxColorScheme_keys (p : Palette) (cs : List (String × String))
    (h : getSyntaxColorScheme p = .ok cs) :
    cs.map Prod.fst = schemeAttrPairs.map Prod.fst :=
  extractScheme_keys p schemeAttrPairs cs h

theorem schemeKeys_nodup : (schemeAttrPairs.map Prod.fst).Nodup := by decide

theorem name_notin_schemeKeys : "name" ∉ schemeAttrPairs.map Prod.fst := by decide

theorem exportThemeToConfig_conf_ok (w : World) (e : Engine) (theme mode : String)
    (replace : Bool) (p : Palette) (ss : String) (cs : List (String × String))
    (hl : loadThemeInternal w theme (some mode) = .ok (p, ss))
    (hs : getSyntaxColorScheme p = .ok cs) :
    (exportThemeToConfig w e theme mode replace).engine.conf =
      confSet
        (if replace then writeScheme e.conf (theme ++ "/" ++ mode) cs
         else setColorScheme (theme ++ "/" ++ mode) cs false e.conf)
        "appearance" (theme ++ "/" ++ mode ++ "/name")
        (getThemeDisplayName w (theme ++ "/" ++ mode)) := by
  unfold exportThemeToConfig
  rw [hl]
  dsimp only
  rw [hs]
  dsimp only
  rcases e.tm.currentTheme with _ | ct
  · rfl
  · by_cases hct : ct ≠ theme <;> simp [hct]

theorem exportThemeToConfig_conf_loadErr (w : World) (e : Engine) (theme mode : String)
    (replace : Bool) (err : PyErr)
    (hl : loadThemeInternal w theme (some mode) = .error err) :
    (exportThemeToConfig w e theme mode replace).engine = e := by
  unfold exportThemeToConfig
  rw [hl]


theorem exportThemeToConfig_conf_schemeErr (w : World) (e : Engine) (theme mode : String)
    (replace : Bool) (p : Palette) (ss : String) (err : PyErr)
    (hl : loadThemeInternal w theme (some mode) = .ok (p, ss))
    (hs : getSyntaxColorScheme p = .error err) :
    (exportThemeToConfig w e theme mode replace).engine = e := by
  unfold exportThemeToConfig
  rw [hl]
  dsimp only
  rw [hs]

theorem loadTheme_ok_inv (w : World) (e : Engine) (theme : String) (uiMode : Option String)
    (p : Palette) (ss : String)
    (hres : (loadTheme w e theme uiMode).result = .ok (p, ss)) :
    loadThemeInternal w theme uiMode = .ok (p, ss) := by
  unfold loadTheme at hres
  rcases hl : loadThemeInternal w theme uiMode with err | pr <;> rw [hl] at hres
  · cases hres
  · obtain ⟨p', ss'⟩ := pr
    dsimp only at hres
    rcases hs : getSyntaxColorScheme p' with err | attrs <;> rw [hs] at hres
    · cases hres
    · cases hres
      rfl

theorem loadTheme_ok_conf (w : World) (e : Engine) (theme : String) (uiMode : Option String)
    (p : Palette) (ss : String) (cs : List (String × String))
    (hl : loadThemeInternal w theme uiMode = .ok (p, ss))
    (hs : getSyntaxColorScheme p = .ok cs) :
    (loadTheme w e theme uiMode).engine.conf =
      confSet (writeScheme e.conf (theme ++ "/" ++ pyOptStr uiMode) cs) "appearance"
        (theme ++ "/" ++ pyOptStr uiMode ++ "/name")
        (getThemeDisplayName w (theme ++ "/" ++ pyOptStr uiMode)) := by
  unfold loadTheme
  rw [hl]
  dsimp only
  rw [hs]

/-- C1: code behavior at the failing input.  With the config store ready and
the selection naming the installed, loadable variant
spyder_themes.dracula/dark, resolving the current palette returns the
hardcoded default theme's palette, not the selected variant's: the
`normalize_theme_name` attribute access raises before `load_theme` can run,
and the outer handler falls back to the default.  The claim describes the
intended behavior; the code contradicts it. -/
theorem c1_selected_variant_ignored :
    confGet draculaSelectedEngine.conf "appearance" "selected" =
      some "spyder_themes.dracula/dark"
    ∧ loadThemeInternal readyWorld "spyder_themes.dracula" (some "dark") =
        .ok (draculaDarkPalette, "dracula-dark-stylesheet")
    ∧ (getThemePalette readyWorld draculaSelectedEngine).palette = some spyderDarkPalette
    ∧ spyderDarkPalette ≠ draculaDarkPalette :=
  ⟨by decide, rfl, by decide, by decide⟩

/-- C2 counterexample: exporting from a fresh engine (no previously active
theme — the claim explicitly allows A to be absent) succeeds, yet the
restore block is never entered, refuting "restoration of the previously
active variant is always attempted". -/
theorem c2_restore_not_always_attempted :
    emptyEngine.tm.currentTheme = none
    ∧ (exportThemeToConfig readyWorld emptyEngine "solarized" "dark" true).result = .ok ()
    ∧ (exportThemeToConfig readyWorld emptyEngine "solarized" "dark" true).restoreAttempted
        = false :=
  ⟨rfl, rfl, by decide⟩

/-- C2 amended: (1) for every export call — succeeding or raising — the
engine's current-theme value equals its pre-export value; (2) when the
target's load and color extraction succeed, the export returns successfully
(any failure of the restoration reload is swallowed: the result does not
depend on it), and the restore block is entered exactly when a previously
active theme exists and differs from the exported theme. -/
theorem c2_current_theme_preserved :
    (∀ (w : World) (e : Engine) (theme mode : String) (replace : Bool),
      (exportThemeToConfig w e theme mode replace).engine.tm.currentTheme
        = e.tm.currentTheme)
    ∧ (∀ (w : World) (e : Engine) (theme mode : String) (replace : Bool),
      (∃ p ss cs, loadThemeInternal w theme (some mode) = .ok (p, ss)
          ∧ getSyntaxColorScheme p = .ok cs) →
      (exportThemeToConfig w e theme mode replace).result = .ok ()
      ∧ ((exportThemeToConfig w e theme mode replace).restoreAttempted = true ↔
          ∃ ct, e.tm.currentTheme = some ct ∧ ct ≠ theme)) := by
  constructor
  · intro w e theme mode replace
    unfold exportThemeToConfig
    rcases hl : loadThemeInternal w theme (some mode) with err | pr
    · rfl
    · obtain ⟨p, ss⟩ := pr
      dsimp only
      rcases hs : getSyntaxColorScheme p with err | cs
      · rfl
      · dsimp only
        rcases hcur : e.tm.currentTheme with _ | ct
        · simpa using hcur
        · by_cases hct : ct ≠ theme <;> simp [hct, hcur]
  · intro w e theme mode replace hok
    obtain ⟨p, ss, cs, hl, hs⟩ := hok
    unfold exportThemeToConfig
    rw [hl]
    dsimp only
    rw [hs]
    dsimp only
    rcases hcur : e.tm.currentTheme with _ | ct
    · simp [hcur]
    · by_cases hct : ct ≠ theme <;> simp [hct, hcur]

/-- C2 witness: the amended theorem applied to a concrete export of
solarized/dark from an engine with no previously active theme. -/
theorem c2_current_theme_preserved_witness :
    (exportThemeToConfig readyWorld draculaSelectedEngine "solarized" "dark" true).engine.tm.currentTheme
      = draculaSelectedEngine.tm.currentTheme
    ∧ (exportThemeToConfig readyWorld draculaSelectedEngine "solarized" "dark" true).result = .ok ()
    ∧ ((exportThemeToConfig readyWorld draculaSelectedEngine "solarized" "dark" true).restoreAttempted = true ↔
        ∃ ct, draculaSelectedEngine.tm.currentTheme = some ct ∧ ct ≠ "solarized") :=
  ⟨c2_current_theme_preserved.1 readyWorld draculaSelectedEngine "solarized" "dark" true,
   (c2_current_theme_preserved.2 readyWorld draculaSelectedEngine "solarized" "dark" true
      ⟨solarizedDarkPalette, "solarized-dark-stylesheet", _, rfl, rfl⟩).1,
   (c2_current_theme_preserved.2 readyWorld draculaSelectedEngine "solarized" "dark" true
      ⟨solarizedDarkPalette, "solarized-dark-stylesheet", _, rfl, rfl⟩).2⟩

/-- C3 counterexample: the color scheme extracted from the solarized dark
palette has seventeen values, not sixteen, and the ForceReplace export
performs eighteen config writes (seventeen colors plus the display name), so
"each of the 16 extracted color-scheme values" misdescribes the write set. -/
theorem c3_scheme_has_seventeen_keys :
    (getSyntaxColorScheme solarizedDarkPalette).map List.length = .ok 17
    ∧ (exportThemeToConfig readyWorld emptyEngine "solarized" "dark" true).engine.conf.length
        = 18 :=
  ⟨rfl, by decide⟩

/-- C3 amended: exporting under ForceReplace writes each of the seventeen
extracted color-scheme values so that reading them back key-by-key yields
exactly the extracted scheme; concretely, after exporting solarized dark the
config key solarized/dark/background reads back "#002B36" exactly. -/
theorem c3_force_replace_round_trip :
    (∀ (w : World) (e : Engine) (theme mode : String) (p : Palette) (ss : String)
        (cs : List (String × String)) (k v : String),
      loadThemeInternal w theme (some mode) = .ok (p, ss) →
      getSyntaxColorScheme p = .ok cs →
      (k, v) ∈ cs →
      confGet (exportThemeToConfig w e theme mode true).engine.conf "appearance"
        (theme ++ "/" ++ mode ++ "/" ++ k) = some v)
    ∧ confGet (exportThemeToConfig readyWorld emptyEngine "solarized" "dark" true).engine.conf
        "appearance" "solarized/dark/background" = some "#002B36" := by
  constructor
  · intro w e theme mode p ss cs k v hl hs hmem
    rw [exportThemeToConfig_conf_ok w e theme mode true p ss cs hl hs]
    have hkeys := getSyntaxColorScheme_keys p cs hs
    have hkmem : k ∈ cs.map Prod.fst := List.mem_map.mpr ⟨(k, v), hmem, rfl⟩
    have hkname : k ≠ "name" := by
      intro heq
      rw [hkeys, heq] at hkmem
      exact name_notin_schemeKeys hkmem
    rw [confGet_confSet_ne _ _ _ _ _ _ (nameKey_ne hkname)]
    rw [if_pos rfl]
    exact confGet_writeScheme_mem (theme ++ "/" ++ mode) k v cs
      (by rw [hkeys]; exact schemeKeys_nodup) hmem e.conf
  · decide

/-- C3 witness: the general round-trip conjunct applied to a concrete key of
the solarized dark export. -/
theorem c3_force_replace_round_trip_witness :
    confGet (exportThemeToConfig readyWorld emptyEngine "solarized" "dark" true).engine.conf
      "appearance" ("solarized" ++ "/" ++ "dark" ++ "/" ++ "keyword") = some "#859900" :=
  c3_force_replace_round_trip.1 readyWorld emptyEngine "solarized" "dark"
    solarizedDarkPalette "solarized-dark-stylesheet" _ "keyword" "#859900" rfl rfl
    (by decide)

/-- C4 counterexample: with the config store ready and the selection naming
an installed, loadable variant, lazy resolution performs no
`export_theme_to_config` call at all — in particular no FillIfMissing
pre-export of the selected variant — because the attempt aborts on the
undefined `normalize_theme_name` method (and the call site requests
`replace=True`, not fill-if-missing). -/
theorem c4_no_fill_if_missing_export :
    readyWorld.confReady = true
    ∧ confGet draculaSelectedEngine.conf "appearance" "selected" =
        some "spyder_themes.dracula/dark"
    ∧ (getThemePalette readyWorld draculaSelectedEngine).exports = [] :=
  ⟨rfl, by decide, rfl⟩

/-- C4 amended: during lazy resolution no pre-export of the selected variant
ever occurs (under any policy): the inner attempt — whose call site specifies
`replace=True` — aborts on the swallowed `AttributeError` raised by the
undefined `normalize_theme_name` before the export call is reached. -/
theorem c4_resolution_never_exports (w : World) (e : Engine) :
    (getThemePalette w e).exports = [] := by
  unfold getThemePalette resolveFallback
  dsimp only [normalizeThemeName]
  split <;> split <;> simp

/-- C5: when the config store reports not-ready and the hardcoded default
variant is loadable, the first access to the lazily resolved palette returns
the default variant's palette to the caller without raising. -/
theorem c5_not_ready_returns_default (w : World) (e : Engine) (p : Palette) (ss : String)
    (hready : w.confReady = false)
    (hdef : (loadTheme w e "spyder_themes.spyder" (some "dark")).result = .ok (p, ss)) :
    (spyderPaletteFirstAccess w e).1 = .ok p := by
  have key : getThemePalette w e = resolveFallback w e [] := by
    unfold getThemePalette
    rw [hready]
    rfl
  unfold spyderPaletteFirstAccess
  rw [key]
  unfold resolveFallback
  dsimp only
  rw [hdef]

/-- C5 witness: resolution with a not-ready store in the concrete world
returns the default theme's dark palette. -/
theorem c5_not_ready_returns_default_witness :
    notReadyWorld.confReady = false
    ∧ (loadTheme notReadyWorld emptyEngine "spyder_themes.spyder" (some "dark")).result =
        .ok (spyderDarkPalette, "spyder-dark-stylesheet")
    ∧ (spyderPaletteFirstAccess notReadyWorld emptyEngine).1 = .ok spyderDarkPalette :=
  ⟨rfl, rfl,
   c5_not_ready_returns_default notReadyWorld emptyEngine spyderDarkPalette
     "spyder-dark-stylesheet" rfl rfl⟩

/-- C6 counterexample: a theme whose dark palette lacks the required
EDITOR_MAGIC key loads successfully — the incomplete palette is returned to
the caller, refuting "a palette missing a required key is rejected at load
time". -/
theorem c6_incomplete_palette_loads :
    attrLookup incompletePalette "EDITOR_MAGIC" = none
    ∧ loadThemeInternal readyWorld "broken_theme" (some "dark") =
        .ok (incompletePalette, "broken-dark-stylesheet") :=
  ⟨rfl, rfl⟩

/-- C6 amended: load fails with ImportError when the identifier has no
installed provider and with ValueError when the theme lacks the requested
mode's palette class, but performs no completeness check: a palette missing a
required key is returned to the caller (incompleteness only surfaces later,
as an AttributeError, when the seventeen colors are extracted). -/
theorem c6_load_failure_modes :
    (∀ (w : World) (theme : String) (mode : Option String),
      w.importModule theme = none →
      loadThemeInternal w theme mode = .error (.importError theme))
    ∧ (∀ (w : World) (theme : String) (m : ThemeModule),
      w.importModule theme = some m → m.darkPalette = none →
      loadThemeInternal w theme (some "dark") =
        .error (.valueError ("Theme " ++ theme ++ " has no SpyderPaletteDark class")))
    ∧ (∀ (w : World) (theme : String) (m : ThemeModule),
      w.importModule theme = some m → m.lightPalette = none →
      loadThemeInternal w theme (some "light") =
        .error (.valueError ("Theme " ++ theme ++ " has no SpyderPaletteLight class")))
    ∧ (attrLookup incompletePalette "EDITOR_MAGIC" = none
      ∧ loadThemeInternal readyWorld "broken_theme" (some "dark") =
          .ok (incompletePalette, "broken-dark-stylesheet")) := by
  refine ⟨?_, ?_, ?_, rfl, rfl⟩
  · intro w theme mode h
    simp [loadThemeInternal, h]
  · intro w theme m h hd
    simp [loadThemeInternal, h, hd]
  · intro w theme m h hl
    simp [loadThemeInternal, h, hl]

/-- C6 witness: the amended failure modes at concrete themes of the test
world. -/
theorem c6_load_failure_modes_witness :
    loadThemeInternal readyWorld "not_installed" (some "dark") =
      .error (.importError "not_installed")
    ∧ loadThemeInternal readyWorld "no_palette_theme" (some "dark") =
        .error (.valueError ("Theme " ++ "no_palette_theme" ++ " has no SpyderPaletteDark class"))
    ∧ loadThemeInternal readyWorld "no_palette_theme" (some "light") =
        .error (.valueError ("Theme " ++ "no_palette_theme" ++ " has no SpyderPaletteLight class")) :=
  ⟨c6_load_failure_modes.1 readyWorld "not_installed" (some "dark") rfl,
   c6_load_failure_modes.2.1 readyWorld "no_palette_theme" noPaletteModule rfl rfl,
   c6_load_failure_modes.2.2.1 readyWorld "no_palette_theme" noPaletteModule rfl rfl⟩

/-- C7: for a color key pre-set to a custom value, a FillIfMissing export
(replace=False) leaves the stored value unchanged — whatever the outcome of
the export — while a ForceReplace export (replace=True) overwrites it with
the theme's canonical extracted value. -/
theorem c7_fill_preserves_replace_overwrites (w : World) (e : Engine)
    (theme mode k custom : String)
    (hk : k ∈ schemeAttrPairs.map Prod.fst)
    (hpre : confGet e.conf "appearance" (theme ++ "/" ++ mode ++ "/" ++ k) = some custom) :
    confGet (exportThemeToConfig w e theme mode false).engine.conf "appearance"
        (theme ++ "/" ++ mode ++ "/" ++ k) = some custom
    ∧ (∀ (p : Palette) (ss : String) (cs : List (String × String)) (canon : String),
        loadThemeInternal w theme (some mode) = .ok (p, ss) →
        getSyntaxColorScheme p = .ok cs → (k, canon) ∈ cs →
        confGet (exportThemeToConfig w e theme mode true).engine.conf "appearance"
          (theme ++ "/" ++ mode ++ "/" ++ k) = some canon) := by
  have hkname : k ≠ "name" := fun heq => name_notin_schemeKeys (heq ▸ hk)
  constructor
  · rcases hl : loadThemeInternal w theme (some mode) with err | pr
    · rw [exportThemeToConfig_conf_loadErr w e theme mode false err hl]
      exact hpre
    · obtain ⟨p, ss⟩ := pr
      rcases hs : getSyntaxColorScheme p with err | cs
      · rw [exportThemeToConfig_conf_schemeErr w e theme mode false p ss err hl hs]
        exact hpre
      · rw [exportThemeToConfig_conf_ok w e theme mode false p ss cs hl hs]
        rw [confGet_confSet_ne _ _ _ _ _ _ (nameKey_ne hkname)]
        rw [if_neg Bool.false_ne_true]
        exact confGet_setColorScheme_preserved _ cs e.conf _ custom hpre
  · intro p ss cs canon hl hs hmem
    rw [exportThemeToConfig_conf_ok w e theme mode true p ss cs hl hs]
    rw [confGet_confSet_ne _ _ _ _ _ _ (nameKey_ne hkname)]
    rw [if_pos rfl]
    exact confGet_writeScheme_mem (theme ++ "/" ++ mode) k canon cs
      (by rw [getSyntaxColorScheme_keys p cs hs]; exact schemeKeys_nodup) hmem e.conf

/-- C7 witness: with solarized/dark/background pre-set to "#123456", the
fill export keeps "#123456" and the replace export writes back "#002B36". -/
theorem c7_fill_preserves_replace_overwrites_witness :
    confGet (exportThemeToConfig readyWorld customEngine "solarized" "dark" false).engine.conf
        "appearance" ("solarized" ++ "/" ++ "dark" ++ "/" ++ "background") = some "#123456"
    ∧ confGet (exportThemeToConfig readyWorld customEngine "solarized" "dark" true).engine.conf
        "appearance" ("solarized" ++ "/" ++ "dark" ++ "/" ++ "background") = some "#002B36" := by
  have h := c7_fill_preserves_replace_overwrites readyWorld customEngine "solarized" "dark"
    "background" "#123456" (by decide) (by decide)
  exact ⟨h.1, h.2 solarizedDarkPalette "solarized-dark-stylesheet" _ "#002B36" rfl rfl (by decide)⟩

/-- C8: code behavior at the failing input.  Loading an installed theme
without an explicitly supplied ui_mode succeeds (the mode defaults to dark
inside the internal loader), but the config keys are written under the
variant string "solarized/None" — the original None argument rendered into
the f-string — and nothing is written under "solarized/dark", contradicting
the claimed "<theme>/<mode>" key schema for this write path. -/
theorem c8_none_mode_keys :
    readyWorld.darkInterface = true
    ∧ (loadTheme readyWorld emptyEngine "solarized" none).result =
        .ok (solarizedDarkPalette, "solarized-dark-stylesheet")
    ∧ confGet (loadTheme readyWorld emptyEngine "solarized" none).engine.conf "appearance"
        "solarized/None/background" = some "#002B36"
    ∧ confGet (loadTheme readyWorld emptyEngine "solarized" none).engine.conf "appearance"
        "solarized/dark/background" = none :=
  ⟨rfl, rfl, by decide, by decide⟩

/-- C9 counterexample: a successful load_theme writes seventeen color keys
plus the display name (eighteen config writes from an empty store), not
sixteen color keys as claimed. -/
theorem c9_seventeen_writes :
    (loadTheme readyWorld emptyEngine "solarized" (some "dark")).result =
      .ok (solarizedDarkPalette, "solarized-dark-stylesheet")
    ∧ (getSyntaxColorScheme solarizedDarkPalette).map List.length = .ok 17
    ∧ (loadTheme readyWorld emptyEngine "solarized" (some "dark")).engine.conf.length = 18 :=
  ⟨rfl, rfl, by decide⟩

/-- C9 amended: every successful load_theme call writes, as a side effect,
all seventeen color keys (the extracted scheme read back key-by-key) and the
display name under the variant string it computes, in addition to returning
the palette and stylesheet. -/
theorem c9_load_writes_all_keys (w : World) (e : Engine) (theme : String)
    (uiMode : Option String) (p : Palette) (ss : String) (cs : List (String × String))
    (hres : (loadTheme w e theme uiMode).result = .ok (p, ss))
    (hcs : getSyntaxColorScheme p = .ok cs) :
    cs.map Prod.fst = schemeAttrPairs.map Prod.fst
    ∧ (∀ k v, (k, v) ∈ cs →
        confGet (loadTheme w e theme uiMode).engine.conf "appearance"
          (theme ++ "/" ++ pyOptStr uiMode ++ "/" ++ k) = some v)
    ∧ confGet (loadTheme w e theme uiMode).engine.conf "appearance"
        (theme ++ "/" ++ pyOptStr uiMode ++ "/name")
        = some (getThemeDisplayName w (theme ++ "/" ++ pyOptStr uiMode)) := by
  have hl := loadTheme_ok_inv w e theme uiMode p ss hres
  have hconf := loadTheme_ok_conf w e theme uiMode p ss cs hl hcs
  have hkeys := getSyntaxColorScheme_keys p cs hcs
  refine ⟨hkeys, ?_, ?_⟩
  · intro k v hmem
    rw [hconf]
    have hkname : k ≠ "name" := by
      intro heq
      have hkmem : k ∈ cs.map Prod.fst := List.mem_map.mpr ⟨(k, v), hmem, rfl⟩
      rw [hkeys, heq] at hkmem
      exact name_notin_schemeKeys hkmem
    rw [confGet_confSet_ne _ _ _ _ _ _ (nameKey_ne hkname)]
    exact confGet_writeScheme_mem _ k v cs (by rw [hkeys]; exact schemeKeys_nodup) hmem e.conf
  · rw [hconf]
    exact confGet_confSet_self _ _ _ _

/-- C9 witness: the amended per-key write-back and name write at a concrete
successful load. -/
theorem c9_load_writes_all_keys_witness :
    confGet (loadTheme readyWorld emptyEngine "solarized" (some "dark")).engine.conf "appearance"
      ("solarized" ++ "/" ++ pyOptStr (some "dark") ++ "/" ++ "background") = some "#002B36"
    ∧ confGet (loadTheme readyWorld emptyEngine "solarized" (some "dark")).engine.conf "appearance"
      ("solarized" ++ "/" ++ pyOptStr (some "dark") ++ "/name")
      = some (getThemeDisplayName readyWorld ("solarized" ++ "/" ++ pyOptStr (some "dark"))) := by
  have h := c9_load_writes_all_keys readyWorld emptyEngine "solarized" (some "dark")
    solarizedDarkPalette "solarized-dark-stylesheet" _ rfl rfl
  exact ⟨h.2.1 "background" "#002B36" (by decide), h.2.2⟩

/-- C10: get_theme_modes never returns an empty list; when the theme module
cannot be imported it returns both modes (and loading either mode then fails
with ImportError), and when the module imports but defines neither palette
class it also returns both modes — so a listed mode need not be loadable. -/
theorem c10_modes_never_empty :
    (∀ (w : World) (theme : String), getThemeModes w theme ≠ [])
    ∧ (∀ (w : World) (theme : String), w.importModule theme = none →
        getThemeModes w theme = ["dark", "light"]
        ∧ ∀ mode, loadThemeInternal w theme (some mode) = .error (.importError theme))
    ∧ (∀ (w : World) (theme : String) (m : ThemeModule),
        w.importModule theme = some m → m.darkPalette = none → m.lightPalette = none →
        getThemeModes w theme = ["dark", "light"]) := by
  refine ⟨?_, ?_, ?_⟩
  · intro w theme
    unfold getThemeModes
    rcases h : w.importModule theme with _ | m
    · simp
    · rcases hd : m.darkPalette with _ | dp <;> rcases hl : m.lightPalette with _ | lp <;>
        simp [hd, hl]
  · intro w theme h
    constructor
    · simp [getThemeModes, h]
    · intro mode
      simp [loadThemeInternal, h]
  · intro w theme m h hd hl
    simp [getThemeModes, h, hd, hl]

/-- C10 witness: both fallback behaviors at concrete themes, with the dark
mode listed for a non-importable theme indeed failing to load. -/
theorem c10_modes_never_empty_witness :
    getThemeModes readyWorld "not_installed" ≠ []
    ∧ getThemeModes readyWorld "not_installed" = ["dark", "light"]
    ∧ loadThemeInternal readyWorld "not_installed" (some "dark") =
        .error (.importError "not_installed")
    ∧ getThemeModes readyWorld "no_palette_theme" = ["dark", "light"] :=
  ⟨c10_modes_never_empty.1 readyWorld "not_installed",
   (c10_modes_never_empty.2.1 readyWorld "not_installed" rfl).1,
   (c10_modes_never_empty.2.1 readyWorld "not_installed" rfl).2 "dark",
   c10_modes_never_empty.2.2 readyWorld "no_palette_theme" noPaletteModule rfl rfl rfl⟩

end Spyder
